import Mathlib

/-!
Verification development for the Program Host of `karel_application.py`
(Turing-Karel). The definitions below are a shallow embedding of the code:
module loading (`StudentCode.__init__`), capability binding
(`StudentCode.inject_namespace`, `KarelApplication.inject_decorator_namespace`),
action interception (`karel_action_decorator`, `beeper_action_decorator`,
`corner_action_decorator`), run supervision (`StudentCode.main`,
`KarelApplication.run_program`), traceback filtering
(`StudentCode.print_error_traceback`), and the host commands exercised from
`mainloop` (space key: `reset_world` then `run_program`; escape key:
`load_world`).
-/

/-- A value a module attribute may hold after loading and binding: a value the
student program itself defined, a raw collaborator capability
(`getattr(karel, func)`), or a decorator-wrapped capability. -/
inductive Binding
  | studentValue (callable : Bool) (id : Nat)
  | rawCapability (name : String)
  | intercepted (name : String)
  deriving DecidableEq

/-- Whether the bound value is callable; every capability implementation is. -/
def Binding.isCallable : Binding → Bool
  | .studentValue c _ => c
  | .rawCapability _ => true
  | .intercepted _ => true

/-- A module namespace: attribute name to bound value. -/
abbrev PyNamespace := String → Option Binding

/-- Pythonic `setattr(mod, name, v)` on the namespace model. -/
def setattr (ns : PyNamespace) (name : String) (v : Binding) : PyNamespace :=
  fun n => if n = name then some v else ns n

/-- The `functions_to_override` list of `StudentCode.inject_namespace`, in
source order (lines 98 to 123). -/
def functions_to_override : List String :=
  ["move", "turn_left", "pick_beeper", "put_beeper",
   "facing_north", "facing_south", "facing_east", "facing_west",
   "not_facing_north", "not_facing_south", "not_facing_east",
   "not_facing_west", "front_is_clear", "beepers_present",
   "no_beepers_present", "beepers_in_bag", "no_beepers_in_bag",
   "front_is_blocked", "left_is_blocked", "left_is_clear",
   "right_is_blocked", "right_is_clear", "paint_corner", "corner_color_is"]

/-- The mutating subset rebound by `inject_decorator_namespace`
(lines 295 to 299). -/
def mutating_functions : List String :=
  ["turn_left", "move", "pick_beeper", "put_beeper", "paint_corner"]

/-- `StudentCode.inject_namespace` restricted to one module: for each name in
`functions_to_override`, `setattr(mod, func, getattr(karel, func))`. -/
def inject_namespace (ns : PyNamespace) : PyNamespace :=
  functions_to_override.foldl
    (fun acc f => setattr acc f (Binding.rawCapability f)) ns

/-- `KarelApplication.inject_decorator_namespace` restricted to one module: the
five mutating names rebound to the decorator-wrapped variants, in the order of
lines 295 to 299 (`turn_left`, `move`, `pick_beeper`, `put_beeper`,
`paint_corner`). -/
def inject_decorator_namespace (ns : PyNamespace) : PyNamespace :=
  setattr (setattr (setattr (setattr (setattr ns
    "turn_left" (Binding.intercepted "turn_left"))
    "move" (Binding.intercepted "move"))
    "pick_beeper" (Binding.intercepted "pick_beeper"))
    "put_beeper" (Binding.intercepted "put_beeper"))
    "paint_corner" (Binding.intercepted "paint_corner")

/-- Both binding passes of `KarelApplication.load_student_code`: the raw pass
over every module of `student_code.mods`, then the decorator pass over every
module. -/
def bind_modules (mods : List PyNamespace) : List PyNamespace :=
  (mods.map inject_namespace).map inject_decorator_namespace

/-- Pacing state: `init_speed` is the value owned by the world collaborator
(`world.init_speed`), `speed` is the attribute `self.speed` of
`KarelApplication`. -/
structure PacingState where
  init_speed : ℚ
  speed : ℚ
  deriving DecidableEq

/-- Line 174 of `KarelApplication.__init__`:
`self.speed = self.world.init_speed`. -/
def app_init (world_init_speed : ℚ) : PacingState :=
  PacingState.mk world_init_speed world_init_speed

/-- A change, made between two calls, to the collaborator-owned value
`world.init_speed`; the application attribute `self.speed` is untouched. -/
def set_world_init_speed (s : PacingState) (v : ℚ) : PacingState :=
  PacingState.mk v s.speed

/-- A change, made between two calls, to the application attribute
`self.speed`. -/
def set_app_speed (s : PacingState) (v : ℚ) : PacingState :=
  PacingState.mk s.init_speed v

/-- Domain failure raised by a capability precondition (a `KarelException`
from the collaborator). -/
inductive DomainErr
  | karelException (msg : String)
  deriving DecidableEq

/-- Host-visible side effects of one intercepted call: the canvas refresh
`self.redraw_all()` and the pacing delay `sleep(1 - self.speed / 100)`. -/
inductive Effect
  | redraw_all
  | sleep (delay : ℚ)
  deriving DecidableEq

/-- The `wrapper` closure of `KarelApplication.karel_action_decorator`
(lines 251 to 257): run `karel_fn()`; on success, `self.redraw_all()` and then
`sleep(1 - self.speed / 100)` with `self.speed` read at call time; if
`karel_fn()` raises, the exception propagates with no refresh and no delay. -/
def karel_action_decorator (s : PacingState) (karel_fn : Except DomainErr Unit) :
    Except DomainErr Unit × List Effect :=
  match karel_fn with
  | .ok _ => (.ok (), [Effect.redraw_all, Effect.sleep (1 - s.speed / 100)])
  | .error e => (.error e, [])

/-- The `wrapper` closure of `KarelApplication.beeper_action_decorator`
(lines 264 to 270), identical in structure to `karel_action_decorator`. -/
def beeper_action_decorator (s : PacingState) (karel_fn : Except DomainErr Unit) :
    Except DomainErr Unit × List Effect :=
  match karel_fn with
  | .ok _ => (.ok (), [Effect.redraw_all, Effect.sleep (1 - s.speed / 100)])
  | .error e => (.error e, [])

/-- The `wrapper` closure of `KarelApplication.corner_action_decorator`
(lines 277 to 283): same protocol, with the color argument forwarded to
`karel_fn(color)`. -/
def corner_action_decorator (s : PacingState)
    (karel_fn : String → Except DomainErr Unit) (color : String) :
    Except DomainErr Unit × List Effect :=
  match karel_fn color with
  | .ok _ => (.ok (), [Effect.redraw_all, Effect.sleep (1 - s.speed / 100)])
  | .error e => (.error e, [])

/-- Invoking the value a capability name is bound to: an intercepted binding
routes through the decorator wrapper; a raw binding calls the collaborator
operation directly, producing no host-side effect. -/
def call_binding (s : PacingState) (underlying : Except DomainErr Unit) :
    Binding → Except DomainErr Unit × List Effect
  | .intercepted _ => karel_action_decorator s underlying
  | _ => (underlying, [])

/-- Failure classes a load attempt can raise in `StudentCode.__init__`:
`FileNotFoundError` (line 49), `SyntaxError` (lines 75 to 80), the
`ImportError` raised on line 74 when `module_loader.exec_module(module)` is
called on the stale loader of the primary file (whose name check rejects any
module named differently from the primary stem), and the `RuntimeError` for a
missing `main` (lines 83 to 86). -/
inductive LoadError
  | fileNotFound
  | syntaxFailure
  | missingMain
  | dependencyImportError
  deriving DecidableEq

/-- Failure classes the entry point can raise, as discriminated by the
`isinstance` test in `StudentCode.main` and the `except` clause of
`KarelApplication.run_program`. -/
inductive RunError
  | karelException
  | nameError
  | runtimeError
  | otherError
  deriving DecidableEq

/-- Behavior of the student program on one load-and-run attempt: either the
load raises, or the program loads and its `main()` returns normally (`none`)
or raises (`some e`). -/
inductive ProgramBehavior
  | loadFails (e : LoadError)
  | runs (result : Option RunError)
  deriving DecidableEq

/-- Observable outcome of one run command: whether the cleaned traceback was
printed to the console, whether the warning popup was shown, and whether
control returned to the event loop of `mainloop` (host alive) rather than an
exception escaping it. -/
structure RunOutcome where
  diagnostic : Bool
  notice : Bool
  host_alive : Bool
  deriving DecidableEq

/-- The `isinstance` filter of `StudentCode.main` (line 132): the cleaned
traceback is printed exactly for `KarelException`, `NameError` and
`RuntimeError`; every exception is then re-raised. -/
def prints_diagnostic : RunError → Bool
  | .karelException => true
  | .nameError => true
  | .runtimeError => true
  | .otherError => false

/-- `KarelApplication.run_program` as observed from `mainloop`:
`self.load_student_code()` runs before the `try` block, so a load failure
propagates out of `run_program` and out of `mainloop` uncaught; of the
execution failures re-raised by `StudentCode.main`, only `KarelException` and
`NameError` are caught by the `except` clause (line 309), which shows the
warning popup and returns control to the event loop. -/
def run_program : ProgramBehavior → RunOutcome
  | .loadFails _ => RunOutcome.mk false false false
  | .runs none => RunOutcome.mk false false true
  | .runs (some e) =>
      if e = RunError.karelException ∨ e = RunError.nameError then
        RunOutcome.mk (prints_diagnostic e) true true
      else
        RunOutcome.mk (prints_diagnostic e) false false

/-- Identity of a module object found in the primary namespace scan of
`StudentCode.__init__`: its module name (the name attribute `exec_module`
passes to the loader name check) and the parent directory of its
`__file__`. -/
structure ModuleInfo where
  name : String
  dir : String
  deriving DecidableEq

/-- One student program file as a load attempt sees it: the stem and directory
of `code_file`, whether `code_file.is_file()`, whether executing the top-level
code raises no `SyntaxError`, whether `hasattr(mod, "main")` holds afterwards,
and the module-valued attributes of the executed module in `dir(mod)` order. -/
structure ProgramFile where
  stem : String
  dir : String
  is_file : Bool
  parses : Bool
  has_main : Bool
  module_attrs : List ModuleInfo
  deriving DecidableEq

/-- Result of a successful `StudentCode.__init__`: the module name, the `mods`
list (primary module first), and the dependency modules that were re-executed
with `module_loader.exec_module`. -/
structure LoadedProgram where
  module_name : String
  mods : List ModuleInfo
  reexecuted : List ModuleInfo
  deriving DecidableEq

/-- The dependency loop of `StudentCode.__init__` (lines 63 to 74): walk the
module-valued attributes in order; skip those whose file lies in the host
installation directory (`Path(__file__).resolve().parent`); append each
external one to `mods` and re-execute it with
`module_loader.exec_module(module)`. That loader is the loader of the primary
file captured on line 57, still named after the primary stem, and its name
check raises `ImportError` for any module whose own name differs from the
primary stem, so the first such external dependency aborts the whole load (the
fresh spec built on line 71 for the dependency is never used). -/
def scan_dependencies (stem host_dir : String) :
    List ModuleInfo → Except LoadError (List ModuleInfo)
  | [] => Except.ok []
  | m :: rest =>
      if m.dir = host_dir then scan_dependencies stem host_dir rest
      else if m.name = stem then
        match scan_dependencies stem host_dir rest with
        | .ok deps => .ok (m :: deps)
        | .error e => .error e
      else Except.error LoadError.dependencyImportError

/-- `StudentCode.__init__` for host directory `host_dir`: raise
`FileNotFoundError` for a missing file; execute the primary module, raising on
a syntax error; run the dependency loop, which aborts with the stale-loader
`ImportError` at the first external module attribute whose name differs from
the primary stem; finally raise if the primary module lacks `main`. -/
def student_code_init (host_dir : String) (p : ProgramFile) :
    Except LoadError LoadedProgram :=
  if p.is_file = true then
    if p.parses = true then
      match scan_dependencies p.stem host_dir p.module_attrs with
      | .error e => Except.error e
      | .ok deps =>
          if p.has_main = true then
            Except.ok (LoadedProgram.mk p.stem
              (ModuleInfo.mk p.stem p.dir :: deps) deps)
          else Except.error LoadError.missingMain
    else Except.error LoadError.syntaxFailure
  else Except.error LoadError.fileNotFound

/-- `KarelApplication.load_student_code`: construct the `StudentCode`, then
run both binding passes over its modules (given each module's namespace before
binding). A load failure propagates before any binding pass runs. -/
def load_student_code (host_dir : String) (p : ProgramFile)
    (namespaces : ModuleInfo → PyNamespace) :
    Except LoadError (LoadedProgram × List PyNamespace) :=
  match student_code_init host_dir p with
  | .error e => .error e
  | .ok lp => .ok (lp, bind_modules (lp.mods.map namespaces))

/-- One stack frame as `tb.walk_tb` yields it, outermost frame first: the base
name of the frame's source file, the line number, and the source line text. -/
structure FrameRec where
  filename : String
  lineno : Nat
  line_text : String
  deriving DecidableEq

/-- The frame-collection loop of `StudentCode.print_error_traceback`
(lines 142 to 147): walk the traceback and append each frame whose file base
name equals the primary module name followed by the `.py` suffix. -/
def collect_display_frames (module_name : String) :
    List FrameRec → List FrameRec → List FrameRec
  | [], acc => acc
  | f :: rest, acc =>
      collect_display_frames module_name rest
        (if f.filename = module_name ++ ".py" then acc ++ [f] else acc)

/-- One `tb.format_list` entry for a retained frame. -/
def format_frame (f : FrameRec) : String :=
  "  File " ++ f.filename ++ ", line " ++ toString f.lineno
    ++ "\n    " ++ f.line_text

/-- `StudentCode.print_error_traceback` (lines 136 to 156): the printed
diagnostic block as the ordered list of its parts: the header, the formatted
retained frames, and the error kind with its message. -/
def print_error_traceback (module_name : String) (trace : List FrameRec)
    (error_type error_msg : String) : List String :=
  ["Traceback (most recent call last):"]
    ++ (collect_display_frames module_name trace []).map format_frame
    ++ [error_type ++ ": " ++ error_msg]

/-- Atomic steps the host performs while handling a command. -/
inductive HostStep
  | reset_robot_state
  | reset_world_state
  | redraw_all
  | load_code
  | bind_raw
  | bind_intercepted
  | invoke_main
  deriving DecidableEq

/-- `KarelApplication.reset_world` (lines 316 to 319): `karel.reset_state()`,
`world.reset_world()`, `redraw_all()`. -/
def reset_world_steps : List HostStep :=
  [HostStep.reset_robot_state, HostStep.reset_world_state, HostStep.redraw_all]

/-- `KarelApplication.run_program` up to the entry-point invocation:
`load_student_code` (module construction plus both binding passes), then
`student_code.main()`. -/
def run_program_steps : List HostStep :=
  [HostStep.load_code, HostStep.bind_raw, HostStep.bind_intercepted,
   HostStep.invoke_main]

/-- The space-key branch of `mainloop` (lines 197 to 199):
`self.reset_world()` then `self.run_program()`. -/
def space_key_steps : List HostStep := reset_world_steps ++ run_program_steps

/-- Robot and world state as the host commands see it, with the initial
configurations the reset operations restore. -/
structure HostWorld where
  initial_robot : Nat
  initial_world : Nat
  robot : Nat
  world : Nat
  deriving DecidableEq

/-- Effect of one host step on robot and world state: `karel.reset_state()`
restores the initial robot, `world.reset_world()` restores the initial world,
and the remaining steps leave both unchanged. -/
def host_step (s : HostWorld) : HostStep → HostWorld
  | HostStep.reset_robot_state =>
      HostWorld.mk s.initial_robot s.initial_world s.initial_robot s.world
  | HostStep.reset_world_state =>
      HostWorld.mk s.initial_robot s.initial_world s.robot s.initial_world
  | _ => s

/-- State visible to `KarelApplication.load_world`: the world contents, the
robot, the initial robot configuration `reset_state` restores, and the
rendered display. -/
structure WorldView where
  initial_robot : Nat
  world : Nat
  robot : Nat
  display : Nat
  deriving DecidableEq

/-- `redraw_all` at the world-state level: the display is re-rendered from the
current world and robot. -/
def redraw_view (s : WorldView) : WorldView :=
  WorldView.mk s.initial_robot s.world s.robot (Nat.pair s.world s.robot)

/-- `KarelApplication.load_world` (lines 321 to 333): ask for a filename; when
the dialog returns the empty string (user cancel) return with no change;
otherwise `world.reload_world(filename)`, `karel.reset_state()`, and
`redraw_all()`. -/
def load_world (s : WorldView) (filename : String)
    (parse_world : String → Nat) : WorldView :=
  if filename = "" then s
  else redraw_view
    (WorldView.mk s.initial_robot (parse_world filename) s.initial_robot
      s.display)

/-- A demonstration module namespace holding a non-callable student value
under every name. -/
def demo_ns : PyNamespace := fun _ => some (Binding.studentValue false 7)

/-- A demonstration program file with one external and one host-directory
module attribute. -/
def demo_file : ProgramFile :=
  ProgramFile.mk "student" "/home/user" true true true
    [ModuleInfo.mk "helpers" "/home/user", ModuleInfo.mk "karel_world" "/karel"]

/-- A demonstration program file whose only module attribute comes from the
host installation directory itself. -/
def demo_internal_only : ProgramFile :=
  ProgramFile.mk "student" "/home/user" true true true
    [ModuleInfo.mk "karel_world" "/karel"]

/-- A demonstration program file that parses but does not define `main`. -/
def demo_no_main : ProgramFile :=
  ProgramFile.mk "student" "/home/user" true true false []

/-- A demonstration program file that lacks `main` and also imports one module
from outside the host installation directory. -/
def demo_no_main_with_dep : ProgramFile :=
  ProgramFile.mk "student" "/home/user" true true false
    [ModuleInfo.mk "helpers" "/home/user"]

theorem inject_namespace_foldl_lookup (names : List String) (ns : PyNamespace)
    (n : String) :
    (names.foldl (fun acc f => setattr acc f (Binding.rawCapability f)) ns) n
      = if n ∈ names then some (Binding.rawCapability n) else ns n := by
  induction names generalizing ns with
  | nil => simp
  | cons x xs ih =>
      rw [List.foldl_cons, ih]
      by_cases hxs : n ∈ xs
      · simp [hxs]
      · by_cases hx : n = x
        · subst hx; simp [hxs, setattr]
        · simp [hxs, hx, setattr]

theorem inject_namespace_lookup (ns : PyNamespace) (n : String) :
    inject_namespace ns n
      = if n ∈ functions_to_override then some (Binding.rawCapability n)
        else ns n :=
  inject_namespace_foldl_lookup functions_to_override ns n

theorem inject_decorator_namespace_lookup (ns : PyNamespace) (n : String) :
    inject_decorator_namespace ns n
      = if n ∈ mutating_functions then some (Binding.intercepted n)
        else ns n := by
  by_cases h1 : n = "turn_left" <;> by_cases h2 : n = "move" <;>
    by_cases h3 : n = "pick_beeper" <;> by_cases h4 : n = "put_beeper" <;>
    by_cases h5 : n = "paint_corner" <;>
    simp_all [inject_decorator_namespace, setattr, mutating_functions]

/-- Claim C1 (counterexample): with the application initialized while
`world.init_speed` is 50, a change of the collaborator-owned value to 100
between two calls does not change the second call's delay: the wrapper still
sleeps for 1 - 50/100 = 1/2 seconds, not the 1 - 100/100 = 0 seconds the claim
predicts, because line 174 cached `self.speed = self.world.init_speed`. -/
theorem delay_tracks_world_speed_refuted :
    (karel_action_decorator (set_world_init_speed (app_init 50) 100)
        (Except.ok ())).2
      = [Effect.redraw_all, Effect.sleep (1 / 2)]
    ∧ (1 : ℚ) - (set_world_init_speed (app_init 50) 100).init_speed / 100 = 0
    ∧ (karel_action_decorator (set_world_init_speed (app_init 50) 100)
        (Except.ok ())).2
      ≠ [Effect.redraw_all,
         Effect.sleep
           (1 - (set_world_init_speed (app_init 50) 100).init_speed / 100)] := by
  refine ⟨?_, by norm_num [set_world_init_speed, app_init], ?_⟩
  · simp only [karel_action_decorator, set_world_init_speed, app_init]
    norm_num
  · simp only [karel_action_decorator, set_world_init_speed, app_init, ne_eq,
      List.cons.injEq, Effect.sleep.injEq, and_true, true_and]
    norm_num

/-- Claim C1 (amended): each intercepted call sleeps for 1 - speed/100 seconds
where speed is the application attribute `self.speed`, read fresh at call
time; that attribute is a copy of `world.init_speed` taken once at application
construction, so changing the application attribute between two calls changes
the second call's delay while changing the collaborator value after
construction changes nothing. -/
theorem delay_reads_app_speed_fresh (s : PacingState) (v : ℚ) :
    (karel_action_decorator s (Except.ok ())).2
      = [Effect.redraw_all, Effect.sleep (1 - s.speed / 100)]
    ∧ karel_action_decorator (set_world_init_speed s v) (Except.ok ())
      = karel_action_decorator s (Except.ok ())
    ∧ (karel_action_decorator (set_app_speed s v) (Except.ok ())).2
      = [Effect.redraw_all, Effect.sleep (1 - v / 100)]
    ∧ (app_init v).speed = v ∧ (app_init v).init_speed = v :=
  ⟨rfl, rfl, rfl, rfl, rfl⟩

/-- Claim C2 (counterexample): for each of the three load failures raised
while a run command reloads the program, the exception escapes `run_program`
and `mainloop` uncaught, so the host does not stay alive to service a
subsequent command. -/
theorem load_failure_leaves_host_dead :
    (run_program (ProgramBehavior.loadFails LoadError.fileNotFound)).host_alive
      = false
    ∧ (run_program
        (ProgramBehavior.loadFails LoadError.syntaxFailure)).host_alive = false
    ∧ (run_program
        (ProgramBehavior.loadFails LoadError.missingMain)).host_alive
      = false := by
  decide

/-- Claim C2 (amended): a failure raised while loading during a run command
aborts that load attempt, but `self.load_student_code()` sits before the `try`
block of `run_program`, so the exception propagates out of the run handler and
out of the `mainloop` event loop uncaught: no diagnostic, no notice, host loop
not alive afterwards. -/
theorem load_failure_escapes_mainloop (e : LoadError) :
    run_program (ProgramBehavior.loadFails e)
      = RunOutcome.mk false false false := by
  cases e <;> rfl

/-- Claim C3 (counterexample): a `RuntimeError` raised during execution gets
the cleaned diagnostic printed by `StudentCode.main`, but `run_program`
catches only `KarelException` and `NameError`, so no user-visible notice is
shown and the exception escapes the host loop. -/
theorem general_runtime_not_recoverable :
    (run_program (ProgramBehavior.runs (some RunError.runtimeError))).diagnostic
      = true
    ∧ (run_program (ProgramBehavior.runs (some RunError.runtimeError))).notice
      = false
    ∧ (run_program
        (ProgramBehavior.runs (some RunError.runtimeError))).host_alive
      = false := by
  decide

/-- Claim C3 (amended): an execution failure that is neither a domain
precondition failure nor an unresolved-name failure is never recoverable at
the host level: it produces no notice and the host loop does not survive it;
the cleaned diagnostic is printed for exactly the `RuntimeError` case, and any
other such failure propagates without even a diagnostic. -/
theorem general_runtime_uncaught (e : RunError)
    (h1 : e ≠ RunError.karelException) (h2 : e ≠ RunError.nameError) :
    run_program (ProgramBehavior.runs (some e))
      = RunOutcome.mk (prints_diagnostic e) false false
    ∧ (prints_diagnostic e = true ↔ e = RunError.runtimeError) := by
  cases e <;> simp_all [run_program, prints_diagnostic]

/-- Witness for the amended claim C3, at the concrete input of an execution
failure outside all recognized classes. -/
theorem general_runtime_uncaught_witness :
    run_program (ProgramBehavior.runs (some RunError.otherError))
      = RunOutcome.mk false false false
    ∧ (prints_diagnostic RunError.otherError = true
        ↔ RunError.otherError = RunError.runtimeError) :=
  general_runtime_uncaught RunError.otherError (by decide) (by decide)

/-- Claim C4 (code bug): at a program file that imports one module whose file
lies outside the host directory, the load never produces a program whose
dependency unit is re-executed and reached by binding, although the comments
on lines 62 and 68 and the fresh spec built on line 71 show that was the
intent: line 74 calls `module_loader.exec_module(module)` on the stale loader
of the primary file, whose name check rejects the dependency name, so the load
aborts with `ImportError` inside a `try` that only handles `SyntaxError`, and
no binding pass runs; with only host-directory module attributes the scan
excludes them and the load succeeds with no dependency units. -/
theorem dependency_reexecution_import_error :
    student_code_init "/karel" demo_file
      = Except.error LoadError.dependencyImportError
    ∧ (∀ nss : ModuleInfo → PyNamespace,
        load_student_code "/karel" demo_file nss
          = Except.error LoadError.dependencyImportError)
    ∧ student_code_init "/karel" demo_internal_only
      = Except.ok (LoadedProgram.mk "student"
          [ModuleInfo.mk "student" "/home/user"] []) :=
  ⟨rfl, fun _ => rfl, rfl⟩

/-- Claim C5: an intercepted mutating call whose underlying operation succeeds
produces exactly one refresh and then one delay, in that order, for each of
the three decorators; a domain error from the underlying operation propagates
unmodified with no refresh and no delay; and a query name stays bound to the
raw capability after both binding passes, whose invocation produces no
host-side effect. -/
theorem mutating_call_refresh_then_delay (s : PacingState) (e : DomainErr)
    (kf : String → Except DomainErr Unit) (color : String)
    (u : Except DomainErr Unit) (q : String) (m : PyNamespace)
    (hq1 : q ∈ functions_to_override) (hq2 : q ∉ mutating_functions) :
    karel_action_decorator s (Except.ok ())
      = (Except.ok (), [Effect.redraw_all, Effect.sleep (1 - s.speed / 100)])
    ∧ beeper_action_decorator s (Except.ok ())
      = (Except.ok (), [Effect.redraw_all, Effect.sleep (1 - s.speed / 100)])
    ∧ corner_action_decorator s (fun _ => Except.ok ()) color
      = (Except.ok (), [Effect.redraw_all, Effect.sleep (1 - s.speed / 100)])
    ∧ karel_action_decorator s (Except.error e) = (Except.error e, [])
    ∧ beeper_action_decorator s (Except.error e) = (Except.error e, [])
    ∧ (kf color = Except.error e →
        corner_action_decorator s kf color = (Except.error e, []))
    ∧ inject_decorator_namespace (inject_namespace m) q
        = some (Binding.rawCapability q)
    ∧ call_binding s u (Binding.rawCapability q) = (u, []) := by
  refine ⟨rfl, rfl, rfl, rfl, rfl, ?_, ?_, rfl⟩
  · intro hkf
    simp [corner_action_decorator, hkf]
  · rw [inject_decorator_namespace_lookup, inject_namespace_lookup]
    simp [hq1, hq2]

/-- Witness for claim C5, at a concrete pacing state, query name, domain
error, and module namespace. -/
theorem mutating_call_refresh_then_delay_witness :
    inject_decorator_namespace (inject_namespace demo_ns) "front_is_clear"
      = some (Binding.rawCapability "front_is_clear")
    ∧ call_binding (PacingState.mk 50 50) (Except.ok ())
        (Binding.rawCapability "front_is_clear") = (Except.ok (), []) :=
  ⟨(mutating_call_refresh_then_delay (PacingState.mk 50 50)
      (DomainErr.karelException "blocked") (fun _ => Except.ok ()) "red"
      (Except.ok ()) "front_is_clear" demo_ns (by decide)
      (by decide)).2.2.2.2.2.2.1,
   (mutating_call_refresh_then_delay (PacingState.mk 50 50)
      (DomainErr.karelException "blocked") (fun _ => Except.ok ()) "red"
      (Except.ok ()) "front_is_clear" demo_ns (by decide)
      (by decide)).2.2.2.2.2.2.2⟩

/-- Claim C6: after the two binding passes of `load_student_code`, every name
of the fixed vocabulary resolves in every module of the loaded program to a
callable capability implementation, never to a value the module previously
held; the mutating subset resolves to the intercepted variants and every other
vocabulary name to the raw capability bound by the first pass. -/
theorem binding_total_two_pass (mods : List PyNamespace) (ns : PyNamespace)
    (hns : ns ∈ bind_modules mods) (n : String)
    (hn : n ∈ functions_to_override) :
    ∃ b, ns n = some b ∧ b.isCallable = true
      ∧ (n ∈ mutating_functions → b = Binding.intercepted n)
      ∧ (n ∉ mutating_functions → b = Binding.rawCapability n)
      ∧ ∀ c i, b ≠ Binding.studentValue c i := by
  rcases List.mem_map.1 hns with ⟨ns1, hns1, rfl⟩
  rcases List.mem_map.1 hns1 with ⟨m, hm, rfl⟩
  rw [inject_decorator_namespace_lookup, inject_namespace_lookup]
  by_cases hmut : n ∈ mutating_functions
  · refine ⟨Binding.intercepted n, by simp [hmut], rfl, fun _ => rfl,
      fun hc => absurd hmut hc, fun c i => by simp⟩
  · refine ⟨Binding.rawCapability n, by simp [hmut, hn], rfl,
      fun hc => absurd hc hmut, fun _ => rfl, fun c i => by simp⟩

/-- Witness for claim C6, at a module namespace that previously bound every
vocabulary name to a non-callable student value. -/
theorem binding_total_two_pass_witness :
    ∃ b, inject_decorator_namespace (inject_namespace demo_ns) "move" = some b
      ∧ b.isCallable = true
      ∧ ("move" ∈ mutating_functions → b = Binding.intercepted "move")
      ∧ ("move" ∉ mutating_functions → b = Binding.rawCapability "move")
      ∧ ∀ c i, b ≠ Binding.studentValue c i :=
  binding_total_two_pass [demo_ns] _ (by simp [bind_modules]) "move"
    (by decide)

/-- Claim C8 (counterexample): a program file whose primary unit executes fine
and lacks `main` but imports one external module does not fail with the
missing-entry-point error: the dependency loop on line 74 aborts first with
the stale-loader `ImportError`, before the `hasattr` check on `main` at
line 83. -/
theorem missing_main_with_dependency_refuted :
    student_code_init "/karel" demo_no_main_with_dep
      = Except.error LoadError.dependencyImportError
    ∧ student_code_init "/karel" demo_no_main_with_dep
      ≠ Except.error LoadError.missingMain := by
  refine ⟨rfl, fun h => ?_⟩
  rw [show student_code_init "/karel" demo_no_main_with_dep
      = Except.error LoadError.dependencyImportError from rfl] at h
  simp at h

/-- Claim C8 (amended): a program file that exists, parses, and does not
define `main` never gets any capability binding for that load attempt: when
the dependency rescan completes (in particular when no module attribute lies
outside the host directory), loading fails with the missing-entry-point error;
when the rescan aborts, loading fails with that scan error instead, still
before either binding pass runs. -/
theorem missing_main_aborts_without_binding (host_dir : String)
    (p : ProgramFile) (nss : ModuleInfo → PyNamespace)
    (h1 : p.is_file = true) (h2 : p.parses = true)
    (h3 : p.has_main = false) :
    (∀ deps, scan_dependencies p.stem host_dir p.module_attrs
        = Except.ok deps →
      student_code_init host_dir p = Except.error LoadError.missingMain
      ∧ load_student_code host_dir p nss
          = Except.error LoadError.missingMain)
    ∧ ∀ e, scan_dependencies p.stem host_dir p.module_attrs
        = Except.error e →
      student_code_init host_dir p = Except.error e
      ∧ load_student_code host_dir p nss = Except.error e := by
  constructor
  · intro deps hscan
    have hs : student_code_init host_dir p
        = Except.error LoadError.missingMain := by
      simp [student_code_init, h1, h2, h3, hscan]
    exact ⟨hs, by simp [load_student_code, hs]⟩
  · intro e hscan
    have hs : student_code_init host_dir p = Except.error e := by
      simp [student_code_init, h1, h2, hscan]
    exact ⟨hs, by simp [load_student_code, hs]⟩

/-- Witness for the amended claim C8, at a concrete program file lacking
`main` and holding no module attributes. -/
theorem missing_main_witness :
    student_code_init "/karel" demo_no_main
      = Except.error LoadError.missingMain
    ∧ load_student_code "/karel" demo_no_main (fun _ => demo_ns)
      = Except.error LoadError.missingMain :=
  (missing_main_aborts_without_binding "/karel" demo_no_main
      (fun _ => demo_ns) rfl rfl rfl).1 [] rfl

theorem collect_display_frames_eq_filter (module_name : String)
    (trace acc : List FrameRec) :
    collect_display_frames module_name trace acc
      = acc ++ trace.filter (fun f => f.filename = module_name ++ ".py") := by
  induction trace generalizing acc with
  | nil => simp [collect_display_frames]
  | cons f rest ih =>
      by_cases hf : f.filename = module_name ++ ".py"
      · simp [collect_display_frames, hf, ih]
      · simp [collect_display_frames, hf, ih]

/-- Claim C7: the emitted diagnostic consists of the header, the formatted
versions of exactly those walked frames whose source file name matches the
primary module identifier (with the `.py` suffix), kept in walk order
(outermost first), and finally the error kind with its message; the retained
list ends at the innermost matching frame, the frame of the failing call; a
frame whose file does not match (host, collaborator, platform, or a dependency
module file) never appears. -/
theorem traceback_retains_primary_frames_only (module_name : String)
    (trace : List FrameRec) (error_type error_msg : String) :
    print_error_traceback module_name trace error_type error_msg
      = ["Traceback (most recent call last):"]
        ++ (trace.filter
            (fun f => f.filename = module_name ++ ".py")).map format_frame
        ++ [error_type ++ ": " ++ error_msg]
    ∧ (collect_display_frames module_name trace []).getLast?
      = (trace.filter (fun f => f.filename = module_name ++ ".py")).getLast?
    ∧ ∀ f ∈ collect_display_frames module_name trace [],
        f.filename = module_name ++ ".py" := by
  refine ⟨?_, ?_, ?_⟩
  · simp [print_error_traceback, collect_display_frames_eq_filter]
  · rw [collect_display_frames_eq_filter]
    simp
  · intro f hf
    rw [collect_display_frames_eq_filter] at hf
    simp only [List.nil_append, List.mem_filter, decide_eq_true_eq] at hf
    exact hf.2

/-- Claim C9: in the space-key branch of `mainloop`, the steps taken before
the program is re-loaded are exactly the three steps of `reset_world` (robot
reset, world reset, redraw); folding the host transition over every step that
precedes the entry-point invocation yields a state whose robot and world equal
their initial configurations, whatever state the previous run left behind;
the entry-point invocation is the final step. -/
theorem run_command_resets_before_reload (s : HostWorld) :
    space_key_steps.takeWhile (fun e => e != HostStep.load_code)
      = reset_world_steps
    ∧ HostStep.redraw_all
        ∈ space_key_steps.takeWhile (fun e => e != HostStep.invoke_main)
    ∧ (space_key_steps.takeWhile
        (fun e => e != HostStep.invoke_main)).foldl host_step s
      = HostWorld.mk s.initial_robot s.initial_world s.initial_robot
          s.initial_world
    ∧ space_key_steps.getLast? = some HostStep.invoke_main :=
  ⟨rfl, by decide, rfl, rfl⟩

/-- Claim C10: when the file dialog of `load_world` returns the empty filename
(user cancel), the command returns at once and the world, the robot, and the
display are all left unchanged. -/
theorem load_world_cancel_unchanged (s : WorldView)
    (parse_world : String → Nat) :
    load_world s "" parse_world = s
    ∧ (load_world s "" parse_world).world = s.world
    ∧ (load_world s "" parse_world).robot = s.robot
    ∧ (load_world s "" parse_world).display = s.display := by
  refine ⟨?_, ?_, ?_, ?_⟩ <;> simp [load_world]
